import Mathlib

/-!
Shallow embedding of the ankabot page-fetch probe (src/main.rs) and proofs
about its readiness engine, fetch-strategy selector, render-session capture
paths, timeout policy and instrumentation script.

Conventions used throughout:
* Rust `String`/`&str` are Lean `String`; Rust `str::contains` is substring
  search, embedded as `strContains`.
* Machine integers (`u64`, `usize`, `i64`) are `Nat`/`Int`; none of the
  embedded code paths can overflow at the values involved.
* Fallible operations (`anyhow::Result`) are `Except String`.
* Wall-clock instants are `Nat` milliseconds.
-/

/-- Substring test: `strContains hay needle` models Rust `hay.contains(needle)`
(and JS literal substring search): `needle` occurs contiguously in `hay`. -/
def strContains (hay needle : String) : Bool :=
  decide (needle.toList <:+: hay.toList)

/-- Count of non-overlapping left-to-right occurrences of `needle`, modelling
Rust `hay.matches(needle).count()`: on a match the scan advances past the
whole matched pattern. -/
def countOcc (needle : List Char) : List Char → Nat
  | [] => 0
  | c :: rest =>
    if needle.isPrefixOf (c :: rest) then
      1 + countOcc needle (rest.drop (needle.length - 1))
    else
      countOcc needle rest
termination_by l => l.length
decreasing_by
  · simp only [List.length_drop, List.length_cons]; omega
  · simp only [List.length_cons]; omega

/-- JS `new RegExp(pat).test s` for a pattern free of regex metacharacters:
substring search. In particular `new RegExp("")` (the empty pattern built by
`build_instrument_js` when no `--idle-ignore` is given) tests true on every
string. -/
def regexTest (pat s : String) : Bool := strContains s pat

/-- The pattern string `render_with_chrome` interpolates into the
Network-Activity Instrumentor script: `args.idle_ignore.as_deref().unwrap_or("")`. -/
def instrument_ignore_arg (idle_ignore : Option String) : String :=
  idle_ignore.getD ""

/-- Effect of the instrumentor script's patched `fetch`/`XHR.send` on the
`window.__ankabot.pending` counter when a request to `url` is issued:
`if (!IGNORE.test(url)) window.__ankabot.pending++`. -/
def instrument_send (ignore url : String) (pending : Int) : Int :=
  if regexTest ignore url then pending else pending + 1

/-- Effect of the instrumentor script's completion handler
(`finally` / `loadend`) on the pending counter:
`if (!IGNORE.test(url)) window.__ankabot.pending--`. -/
def instrument_complete (ignore url : String) (pending : Int) : Int :=
  if regexTest ignore url then pending else pending - 1

/-- `fetch_http`: `html.matches("<a ").count()`. -/
def links_found (html : String) : Nat :=
  countOcc "<a ".toList html.toList

/-- `fetch_http`: `html.trim().is_empty() || html.len() < 512 ||
!html.to_lowercase().contains("<body")` (Rust `len` is bytes). -/
def looks_empty (html : String) : Bool :=
  html.trim.isEmpty || decide (html.utf8ByteSize < 512)
    || !(strContains html.toLower "<body")

/-- `main`: `let needs_js = http_res.looks_empty || http_res.links_found == 0`. -/
def needs_js (html : String) : Bool :=
  looks_empty html || links_found html == 0

/-- Which fetch path `main` ends up on. -/
inductive FetchPath
  | httpOnly
  | browser
deriving DecidableEq

/-- The fetch-path decision of `main` (lines 229–257): with `--force-chrome`
the plain fetch is skipped entirely; otherwise a failed plain fetch
(`fetched = none`) or a `needs_js` body falls through to the browser path,
and only a renderable body short-circuits to the HTTP-only result. -/
def choosePath (force_chrome : Bool) (fetched : Option String) : FetchPath :=
  if force_chrome then .browser
  else
    match fetched with
    | some html => if needs_js html then .browser else .httpOnly
    | none => .browser

/-- Written from the spec's words (claim C3): `looksRenderable` requires a
non-blank body, length at least 512 bytes, a body-open marker, and at least
one hyperlink-like substring. -/
def looksRenderableSpec (html : String) : Prop :=
  ¬ html.trim.isEmpty = true ∧ 512 ≤ html.utf8ByteSize
    ∧ strContains html.toLower "<body" = true
    ∧ strContains html "<a " = true

/-- One poll tick's probe readings, as `wait_until_ready` observes them:
`document.readyState`, the instrumented pending counter, the
resource-timing entry count, the visible text length and the
primary-container match. -/
structure Obs where
  readyState : String
  pending : Int
  resourceCnt : Int
  textLen : Nat
  hasMain : Bool

/-- Outcome of `wait_until_ready`: `Ok(branch)` or the
"wait_until_ready timeout" error. -/
inductive WaitOutcome
  | ready (branch : String)
  | timedOut
deriving DecidableEq

/-- The sleep at the bottom of the `wait_until_ready` poll loop:
`std::thread::sleep(Duration::from_millis(200))`. Each loop iteration is
modelled as taking exactly this long (probe evaluations instantaneous). -/
def pollInterval : Nat := 200

/-- `wait_until_ready`'s readiness test: `"interactive"` accepts
`interactive` or `complete`; any other requested state demands `complete`. -/
def ready_ok (waitReady readyState : String) : Bool :=
  match waitReady with
  | "interactive" => readyState == "interactive" || readyState == "complete"
  | _ => readyState == "complete"

/-- The poll loop of `wait_until_ready` (lines 514–579). State carried
across iterations: current time `t` (ms), tick index `i` into the probe
trace, `lastCnt`, `idleSince`, `heurSince`. Each iteration: deadline check,
ready-state branch, network-idle branch (pending at/below threshold and
resource count stable, sustained for `networkIdleMs`), heuristic branch
(text length and container match sustained for 600 ms; the bounded
image/font settle wait that follows discards its result and is modelled as
instantaneous), then sleep one poll interval. Returns the branch and the
time at which the function returns. -/
def waitLoop (waitReady : String) (networkIdleMs : Nat) (idleThreshold : Int)
    (heuristicMinChars : Nat) (deadline : Nat) (trace : Nat → Obs)
    (i t : Nat) (lastCnt : Int) (idleSince heurSince : Option Nat) :
    WaitOutcome × Nat :=
  if deadline ≤ t then (.timedOut, t)
  else
    let o := trace i
    if ready_ok waitReady o.readyState then (.ready "ready_state", t)
    else
      let idleHit := o.pending ≤ idleThreshold ∧ o.resourceCnt = lastCnt
      let idleSince' := if idleHit then some (idleSince.getD t) else none
      if idleHit ∧ networkIdleMs ≤ t - idleSince.getD t then
        (.ready "network_idle", t)
      else
        let heurHit := heuristicMinChars ≤ o.textLen ∧ o.hasMain = true
        let heurSince' := if heurHit then some (heurSince.getD t) else none
        if heurHit ∧ 600 ≤ t - heurSince.getD t then
          (.ready "heuristic", t)
        else
          waitLoop waitReady networkIdleMs idleThreshold heuristicMinChars
            deadline trace (i + 1) (t + pollInterval) o.resourceCnt
            idleSince' heurSince'
termination_by deadline - t
decreasing_by simp only [pollInterval]; omega

/-- Rust `str::eq_ignore_ascii_case`: equality after ASCII lowercasing
(Lean's `Char.toLower` lowers exactly the ASCII range `A`–`Z`). -/
def eq_ignore_ascii_case (a b : String) : Bool :=
  a.toList.map Char.toLower == b.toList.map Char.toLower

/-- Rust `str::to_ascii_lowercase` (ASCII-only lowering). -/
def asciiLower (s : String) : String :=
  String.mk (s.toList.map Char.toLower)

/-- `wait_until_ready` (lines 497–580): if the caller disabled readiness
waiting (`wait_ready.eq_ignore_ascii_case("none")`), return
`Ok("ready_state")` immediately — before any deadline check or probe read;
otherwise enter the poll loop with `last_cnt = -1`,
`idle_since = heur_since = None`. -/
def wait_until_ready (waitReady : String) (networkIdleMs : Nat)
    (idleThreshold : Int) (heuristicMinChars : Nat) (deadline startTime : Nat)
    (trace : Nat → Obs) : WaitOutcome × Nat :=
  if eq_ignore_ascii_case waitReady "none" then (.ready "ready_state", startTime)
  else
    waitLoop waitReady networkIdleMs idleThreshold heuristicMinChars deadline
      trace 0 startTime (-1) none none

/-- A probe trace on which no readiness signal ever fires: page stuck in
`loading`, pending requests outstanding, resource count growing, no text. -/
def traceStuck : Nat → Obs :=
  fun i => { readyState := "loading", pending := 7, resourceCnt := Int.ofNat i,
             textLen := 0, hasMain := false }

/-- A probe trace whose very first tick reports `complete`. -/
def traceComplete : Nat → Obs :=
  fun _ => { readyState := "complete", pending := 0, resourceCnt := 0,
             textLen := 0, hasMain := false }

/-- The `ChromeRes` record built on the success path of `render_with_chrome`. -/
structure ChromeResM where
  final_url : String
  status : Option Nat
  redirected : Bool
  html_path : String
  elapsed_ms : Nat
  screenshot_path : Option String
  pdf_path : Option String
  waf_detected : Bool
  anti_bot_vendor : Option String
  js_challenge : Bool
  wait_branch : String
deriving DecidableEq

/-- The anti-bot phrase check run on the (up to 4096-character) visible body
text: `let l = t.to_ascii_lowercase(); l.contains("checking your browser")
|| l.contains("verifying you are human") || l.contains("press and hold")`. -/
def challenge_phrases (t : String) : Bool :=
  strContains (asciiLower t) "checking your browser"
    || strContains (asciiLower t) "verifying you are human"
    || strContains (asciiLower t) "press and hold"

/-- `body_text.as_deref().map(|t| ...).unwrap_or(false)`: a missing
evaluation value means no challenge flagged. -/
def challengeOf (bodyText : Option String) : Bool :=
  match bodyText with
  | some t => challenge_phrases t
  | none => false

/-- Outcomes of the individual effectful steps inside the success-path
closure of `render_with_chrome` (lines 787–861), in program order. Each
`Except` value is the result the live browser tab / filesystem would give;
`selectorWait`/`cookieExport` are `none` when the caller did not request
them. `waitReadyRes` is the outcome of the `wait_until_ready` call
(modelled in detail by `wait_until_ready` above). `evalBodyText` is the
stringified value of `document.body.innerText.slice(0, 4096)`. -/
structure SuccessEnv where
  navigate : Except String Unit
  waitNavigated : Except String Unit
  bringToFront : Except String Unit
  focusEmulation : Except String Unit
  waitReadyRes : Except String String
  selectorWait : Option (Except String Unit)
  cookieExport : Option (Except String Unit)
  evalBodyText : Except String (Option String)
  getContent : Except String String
  writeDomHtml : Except String Unit
  captureShot : Except String Unit
  writeShot : Except String Unit
  imagesFonts : Except String Unit
  printPdf : Except String Unit
  writePdf : Except String Unit
  finalUrl : String

/-- An optional step (`if let Some(x) = ... { ...? }`): skipped when not
requested, otherwise its result. Used for the selector wait and the cookie
export. -/
def optStep : Option (Except String Unit) → Except String Unit
  | some r => r
  | none => Except.ok ()

/-- The success-path closure of `render_with_chrome`: every step is chained
with `?`, so the first failing step aborts the closure with its error. On
full success it assembles the `ChromeRes` record (screenshot and PDF paths
always present, `status = None`, WAF and JS-challenge flags both set from
the same phrase check, vendor absent). -/
def successCapture (url domHtmlPath pngPath pdfPath : String) (elapsed : Nat)
    (env : SuccessEnv) : Except String ChromeResM := do
  let _ ← env.navigate
  let _ ← env.waitNavigated
  let _ ← env.bringToFront
  let _ ← env.focusEmulation
  let waitBranch ← env.waitReadyRes
  let _ ← optStep env.selectorWait
  let _ ← optStep env.cookieExport
  let bodyText ← env.evalBodyText
  let challenge := challengeOf bodyText
  let _html ← env.getContent
  let _ ← env.writeDomHtml
  let finalUrl := env.finalUrl
  let redirected := finalUrl != url
  let _ ← env.captureShot
  let _ ← env.writeShot
  let _ ← env.imagesFonts
  let _ ← env.printPdf
  let _ ← env.writePdf
  pure {
    final_url := finalUrl
    status := none
    redirected := redirected
    html_path := domHtmlPath
    elapsed_ms := elapsed
    screenshot_path := some pngPath
    pdf_path := some pdfPath
    waf_detected := challenge
    anti_bot_vendor := none
    js_challenge := challenge
    wait_branch := waitBranch }

/-- The diagnostic signal snapshot of a `TimeoutReport`. -/
structure DiagnosticsM where
  dom_text_chars : Nat
  images_total : Nat
  images_incomplete : Nat
  pending_requests : Nat
deriving DecidableEq

/-- The artifact paths of a `TimeoutReport`: html and screenshot paths are
reported unconditionally, the pdf path only if both print and write
succeeded. -/
structure ArtifactsM where
  html : String
  screenshot : String
  pdf : Option String
deriving DecidableEq

/-- The `TimeoutReport` record. -/
structure TimeoutReportM where
  status : String
  reason : String
  url : String
  deadline_ms : Nat
  elapsed_ms : Nat
  wait_branch : String
  diagnostics : DiagnosticsM
  artifacts : ArtifactsM
deriving DecidableEq

/-- `RenderOutcome`: success or a classified timeout. -/
inductive RenderOutcomeM
  | success (r : ChromeResM)
  | timeout (r : TimeoutReportM)
deriving DecidableEq

/-- Outcomes of the captures attempted on the timeout/diagnostics path of
`render_with_chrome` (lines 876–931), in program order. The four probe
evaluations and the debug-directory creation are chained with `?` in the
source; `getContent` is `unwrap_or_default`-ed; the html write's, the
screenshot capture's and the screenshot write's results are discarded
(`let _ =` / `if let Ok`); the pdf print and write results only decide
whether a pdf path is reported. -/
structure DiagEnv where
  evalDomTextLen : Except String (Option Nat)
  evalImagesTotal : Except String (Option Nat)
  evalImagesIncomplete : Except String (Option Nat)
  evalPending : Except String (Option Nat)
  createDebugDir : Except String Unit
  getContent : Except String String
  writeHtml : Except String Unit
  screenshot : Except String Unit
  writeScreenshot : Except String Unit
  printPdf : Except String Unit
  writePdf : Except String Unit

/-- The error classification in `render_with_chrome`'s failure handler:
`msg.contains("timeout") || msg.contains("EventNeverCame")`. -/
def timeoutLike (msg : String) : Bool :=
  strContains msg "timeout" || strContains msg "EventNeverCame"

/-- The failing-branch classification for the timeout report. -/
def waitBranchOf (msg : String) : String :=
  if strContains msg "network idle" then "network_idle"
  else if strContains msg "readyState" then "ready_state"
  else "heuristic"

/-- The `Err(e)` arm of `render_with_chrome` (lines 863–957): a
timeout-like error is turned into `Ok(RenderOutcome::Timeout(report))`,
but the four diagnostic probe evaluations and the debug-directory creation
are still chained with `?`, so a failure in any of them escalates instead;
the html content fetch swallows its error (`unwrap_or_default`), the html
write, screenshot capture and screenshot write results are discarded, and
the pdf print/write results only decide the reported pdf path. A
non-timeout-like error propagates unchanged. -/
def handleRenderError (url msg : String) (maxWaitMs elapsed : Nat)
    (dbgHtmlPath dbgShotPath dbgPdfPath : String) (env : DiagEnv) :
    Except String RenderOutcomeM :=
  if timeoutLike msg then do
    let dom ← env.evalDomTextLen
    let imgsTot ← env.evalImagesTotal
    let imgsInc ← env.evalImagesIncomplete
    let pend ← env.evalPending
    let _ ← env.createDebugDir
    let _htmlContent := match env.getContent with
      | .ok h => h
      | .error _ => ""
    let pdfSaved : Option String :=
      match env.printPdf, env.writePdf with
      | .ok _, .ok _ => some dbgPdfPath
      | _, _ => none
    pure (.timeout {
      status := "timeout"
      reason := msg
      url := url
      deadline_ms := maxWaitMs
      elapsed_ms := elapsed
      wait_branch := waitBranchOf msg
      diagnostics := {
        dom_text_chars := dom.getD 0
        images_total := imgsTot.getD 0
        images_incomplete := imgsInc.getD 0
        pending_requests := pend.getD 0 }
      artifacts := {
        html := dbgHtmlPath
        screenshot := dbgShotPath
        pdf := pdfSaved } })
  else .error msg

/-- `render_with_chrome` end to end: the setup sequence before the closure
(profile dir, browser launch, tab configuration, cookie import — every step
`?`-chained, with no timeout classification) and then the success closure
with its failure handler. -/
def render_with_chrome (url domHtmlPath pngPath pdfPath : String)
    (maxWaitMs elapsed : Nat) (dbgHtmlPath dbgShotPath dbgPdfPath : String)
    (setup : Except String Unit) (senv : SuccessEnv) (denv : DiagEnv) :
    Except String RenderOutcomeM :=
  match setup with
  | .error e => .error e
  | .ok _ =>
    match successCapture url domHtmlPath pngPath pdfPath elapsed senv with
    | .ok r => .ok (.success r)
    | .error e =>
      handleRenderError url e maxWaitMs elapsed dbgHtmlPath dbgShotPath
        dbgPdfPath denv

/-- All five `?`-chained diagnostic steps of the timeout path succeeded. -/
def diagOk (env : DiagEnv) : Prop :=
  (∃ a, env.evalDomTextLen = .ok a) ∧ (∃ a, env.evalImagesTotal = .ok a)
    ∧ (∃ a, env.evalImagesIncomplete = .ok a) ∧ (∃ a, env.evalPending = .ok a)
    ∧ env.createDebugDir = .ok ()

/-- The `--on-timeout` disposition. -/
inductive OnTimeoutM
  | Continue
  | Report
  | Fail
deriving DecidableEq

/-- The `Output` record `main` serializes. -/
structure OutputM where
  input_url : String
  final_url : String
  http_status : Nat
  redirected : Bool
  requires_javascript : Bool
  waf_detected : Bool
  anti_bot_vendor : Option String
  js_challenge_page : Bool
  screenshot_path : Option String
  pdf_path : Option String
  html_path : String
  elapsed_ms : Nat
  pages_crawled : Nat
  wait_branch : String
  run_dir : String
deriving DecidableEq

/-- The parsed CLI configuration (`struct Cli`). The `f64` device pixel
ratio is only ever carried through unchanged, so it is embedded as a
rational. -/
structure CliM where
  url : String
  force_chrome : Bool
  out_root : String
  run_dir : Option String
  max_wait_ms : Nat
  wait_ready : String
  network_idle_ms : Nat
  idle_threshold : Nat
  idle_ignore : Option String
  heuristic_min_chars : Nat
  wait_selector : Option String
  profile : String
  user_data_dir : Option String
  import_cookies : Option String
  export_cookies : Option String
  locale : Option String
  tz : Option String
  geo : Option String
  window : String
  dpr : Rat
  mobile : Bool
  headful : Bool
  extensions : Option String
  proxy : Option String
  no_virtual_time : Bool
  headful_fallback : Bool
  debug_dir : String
  on_timeout : OnTimeoutM
deriving DecidableEq

/-- How one `main` invocation terminates: normal completion with a written
`Output`, the `report` disposition's `process::exit(2)` after writing the
`TimeoutReport`, or a hard error returned to the caller. -/
inductive MainExit
  | okResult (out : OutputM)
  | reportExit (report : TimeoutReportM) (code : Nat)
  | hardError (msg : String)
deriving DecidableEq

/-- The `Output` record `main` builds on the success path of the browser
branch: `http_status = chrome.status.unwrap_or(200)`,
`requires_javascript = true`, `pages_crawled = 1`, every detection flag and
the wait branch copied from the `ChromeRes`. -/
def outputOfSuccess (inputUrl runDir : String) (chrome : ChromeResM) : OutputM :=
  { input_url := inputUrl
    final_url := chrome.final_url
    http_status := chrome.status.getD 200
    redirected := chrome.redirected
    requires_javascript := true
    waf_detected := chrome.waf_detected
    anti_bot_vendor := chrome.anti_bot_vendor
    js_challenge_page := chrome.js_challenge
    screenshot_path := chrome.screenshot_path
    pdf_path := chrome.pdf_path
    html_path := chrome.html_path
    elapsed_ms := chrome.elapsed_ms
    pages_crawled := 1
    wait_branch := chrome.wait_branch
    run_dir := runDir }

/-- The degraded `Output` built by the `continue` disposition (lines
292–319): status 0, no WAF classification, no vendor, no JS-challenge
flag, artifacts taken from the timeout report. -/
def continueOutput (inputUrl runDir : String) (r : TimeoutReportM) : OutputM :=
  { input_url := inputUrl
    final_url := r.url
    http_status := 0
    redirected := false
    requires_javascript := true
    waf_detected := false
    anti_bot_vendor := none
    js_challenge_page := false
    screenshot_path := some r.artifacts.screenshot
    pdf_path := r.artifacts.pdf
    html_path := r.artifacts.html
    elapsed_ms := r.elapsed_ms
    pages_crawled := 1
    wait_branch := r.wait_branch
    run_dir := runDir }

/-- The `match args.on_timeout` in `main` (lines 287–321): `Report` writes
the report and exits with code 2, `Continue` writes the degraded `Output`
and completes normally, `Fail` surfaces the report's reason as a hard
error. -/
def applyTimeoutDisposition (inputUrl runDir : String) (onT : OnTimeoutM)
    (r : TimeoutReportM) : MainExit :=
  match onT with
  | .Report => .reportExit r 2
  | .Continue => .okResult (continueOutput inputUrl runDir r)
  | .Fail => .hardError r.reason

/-- The headful-fallback logic of `main` (lines 257–262): if the first
render attempt erred, fallback is enabled and the first attempt was
headless, rerun `render_with_chrome` once with a cloned configuration whose
only change is `headful = true`. -/
def renderWithFallback (args : CliM)
    (render : CliM → Except String RenderOutcomeM) :
    Except String RenderOutcomeM :=
  let first := render args
  if first.isOk = false ∧ args.headful_fallback = true ∧ args.headful = false
  then render { args with headful := true }
  else first

/-- The sequence of configurations `main` passes to `render_with_chrome`
under the same fallback condition: the original one, plus — only on the
retry path — the headful-forced clone. -/
def renderAttemptConfigs (args : CliM)
    (render : CliM → Except String RenderOutcomeM) : List CliM :=
  if (render args).isOk = false ∧ args.headful_fallback = true
      ∧ args.headful = false
  then [args, { args with headful := true }]
  else [args]

/-- A success-path environment in which every step succeeds, the selector
and cookie-export steps were not requested, and the readiness branch,
final URL and evaluated body text are as given. -/
def senvOk (waitBranch finalUrl : String) (bodyText : Option String) :
    SuccessEnv :=
  { navigate := .ok ()
    waitNavigated := .ok ()
    bringToFront := .ok ()
    focusEmulation := .ok ()
    waitReadyRes := .ok waitBranch
    selectorWait := none
    cookieExport := none
    evalBodyText := .ok bodyText
    getContent := .ok "<html><body>done</body></html>"
    writeDomHtml := .ok ()
    captureShot := .ok ()
    writeShot := .ok ()
    imagesFonts := .ok ()
    printPdf := .ok ()
    writePdf := .ok ()
    finalUrl := finalUrl }

/-- A diagnostics environment in which every capture succeeds. -/
def denvOk : DiagEnv :=
  { evalDomTextLen := .ok (some 120)
    evalImagesTotal := .ok (some 4)
    evalImagesIncomplete := .ok (some 1)
    evalPending := .ok (some 2)
    createDebugDir := .ok ()
    getContent := .ok "<html>partial</html>"
    writeHtml := .ok ()
    screenshot := .ok ()
    writeScreenshot := .ok ()
    printPdf := .ok ()
    writePdf := .ok () }

/-- Diagnostics environment whose DOM-text-length evaluation fails. -/
def denvDomFail : DiagEnv :=
  { denvOk with evalDomTextLen := .error "evaluate failed: tab crashed" }

/-- Diagnostics environment whose image-count evaluation fails. -/
def denvImgFail : DiagEnv :=
  { denvOk with evalImagesTotal := .error "images eval failed" }

/-- Success environment whose screenshot capture fails with a
non-timeout-like error. -/
def senvShotFail : SuccessEnv :=
  { senvOk "network_idle" "https://x.test/final" (some "Hello world") with
    captureShot := .error "screenshot capture failed" }

/-- Success environment in which the readiness wait itself timed out. -/
def senvWaitTimeout : SuccessEnv :=
  { senvOk "unused" "https://slow.example/" none with
    waitReadyRes := .error "wait_until_ready timeout" }

/-- A baseline CLI configuration with all defaults. -/
def cliBase : CliM :=
  { url := "https://example.com/"
    force_chrome := false
    out_root := "./out"
    run_dir := none
    max_wait_ms := 12000
    wait_ready := "complete"
    network_idle_ms := 1000
    idle_threshold := 0
    idle_ignore := none
    heuristic_min_chars := 1500
    wait_selector := none
    profile := "default"
    user_data_dir := none
    import_cookies := none
    export_cookies := none
    locale := none
    tz := none
    geo := none
    window := "1366x768"
    dpr := 1
    mobile := false
    headful := false
    extensions := none
    proxy := none
    no_virtual_time := false
    headful_fallback := false
    debug_dir := "out/debug"
    on_timeout := .Report }

/-- The baseline configuration with headful fallback enabled. -/
def cliFB : CliM := { cliBase with headful_fallback := true }

/-- A `ChromeRes` fixture for the fallback witness's stub renderer. -/
def chromeFix : ChromeResM :=
  { final_url := "https://example.com/"
    status := none
    redirected := false
    html_path := "dom.html"
    elapsed_ms := 900
    screenshot_path := some "snap.png"
    pdf_path := some "page.pdf"
    waf_detected := false
    anti_bot_vendor := none
    js_challenge := false
    wait_branch := "ready_state" }

/-- A stub renderer that fails headless and succeeds headful, exercising
the fallback retry. -/
def renderStub : CliM → Except String RenderOutcomeM :=
  fun a => if a.headful then .ok (.success chromeFix)
           else .error "chrome failed to launch"

/-- Body text containing one of the challenge phrases. -/
def bodyC9 : String :=
  "One moment. Verifying you are human. This may take a few seconds."

/-- Success environment whose body-text evaluation returns `bodyC9`. -/
def senvC9 : SuccessEnv := senvOk "heuristic" "https://shop.example/" (some bodyC9)

/-- The `ChromeRes` that `successCapture` produces from `senvC9`. -/
def chromeC9 : ChromeResM :=
  { final_url := "https://shop.example/"
    status := none
    redirected := true
    html_path := "dom.html"
    elapsed_ms := 321
    screenshot_path := some "snap.png"
    pdf_path := some "page.pdf"
    waf_detected := true
    anti_bot_vendor := none
    js_challenge := true
    wait_branch := "heuristic" }

theorem countOcc_pos_iff (needle : List Char) (hne : needle ≠ []) :
    ∀ l, 0 < countOcc needle l ↔ needle <:+: l := by
  intro l
  induction l with
  | nil =>
    simp [countOcc, List.infix_nil, hne]
  | cons c rest ih =>
    rw [countOcc]
    by_cases h : needle.isPrefixOf (c :: rest) = true
    · rw [if_pos h]
      constructor
      · intro _
        exact (List.isPrefixOf_iff_prefix.mp h).isInfix
      · intro _; omega
    · rw [if_neg h]
      rw [ih, List.infix_cons_iff]
      have hp : ¬ needle <+: c :: rest := by
        intro hpre
        exact h (List.isPrefixOf_iff_prefix.mpr hpre)
      tauto

/-- Claim C3: for every plain-HTTP response the Fetch Strategy Selector
classifies `needsRender = false` exactly when the body is non-blank, at least
512 bytes, contains a body-open marker and at least one hyperlink-like
substring; in that case the browser path is not invoked, and on any other
body — or on a transport error — the browser path is taken. -/
theorem claim_C3 (html : String) :
    (needs_js html = false ↔ looksRenderableSpec html)
    ∧ (choosePath false (some html) = .httpOnly ↔ needs_js html = false)
    ∧ choosePath false none = .browser := by
  refine ⟨?_, ?_, rfl⟩
  · have hlinks : (links_found html == 0) = false ↔ strContains html "<a " = true := by
      have h1 := countOcc_pos_iff "<a ".toList (by decide) html.toList
      constructor
      · intro h
        have : ¬ links_found html = 0 := by
          intro h0; rw [h0] at h; simp at h
        have : 0 < links_found html := Nat.pos_of_ne_zero this
        rw [links_found] at this
        simpa [strContains] using h1.mp this
      · intro h
        have hin : "<a ".toList <:+: html.toList := by
          simpa [strContains] using h
        have : 0 < links_found html := by rw [links_found]; exact h1.mpr hin
        simp only [beq_eq_false_iff_ne, ne_eq]
        omega
    rw [needs_js, Bool.or_eq_false_iff, looks_empty]
    rw [Bool.or_eq_false_iff, Bool.or_eq_false_iff]
    rw [hlinks, looksRenderableSpec]
    constructor
    · rintro ⟨⟨⟨h1, h2⟩, h3⟩, h4⟩
      refine ⟨by simp [h1], by simpa using of_decide_eq_false h2, ?_, h4⟩
      simpa using h3
    · rintro ⟨h1, h2, h3, h4⟩
      refine ⟨⟨⟨by simpa using h1, decide_eq_false (by omega)⟩, by simpa using h3⟩, h4⟩
  · cases h : needs_js html <;> simp [choosePath, h]

/-- Claim C1 (code bug): `main` passes `--idle-ignore`'s default through
`unwrap_or("")`, and the instrumentor script's `new RegExp("")` matches
every URL, so with no caller-supplied pattern every fetch/XHR URL is
excluded from the count: the pending counter is never incremented on send
nor decremented on completion, contradicting "exclude nothing". -/
theorem claim_C1_bug :
    instrument_ignore_arg none = ""
    ∧ regexTest (instrument_ignore_arg none) "https://example.com/api/data" = true
    ∧ instrument_send (instrument_ignore_arg none) "https://example.com/api/data" 0 = 0
    ∧ instrument_complete (instrument_ignore_arg none) "https://example.com/api/data" 0 = 0 := by
  refine ⟨rfl, ?_, ?_, ?_⟩ <;> decide

theorem waitLoop_ready_lt (wr : String) (nim : Nat) (ith : Int) (hmc dl : Nat)
    (tr : Nat → Obs) :
    ∀ (n i t : Nat) (lc : Int) (isn hsn : Option Nat), dl - t ≤ n →
      ∀ b : String, (waitLoop wr nim ith hmc dl tr i t lc isn hsn).1 = .ready b →
        (waitLoop wr nim ith hmc dl tr i t lc isn hsn).2 < dl := by
  intro n
  induction n with
  | zero =>
    intro i t lc isn hsn hn b
    rw [waitLoop, if_pos (by omega : dl ≤ t)]
    intro hb
    exact absurd hb (by simp)
  | succ n ih =>
    intro i t lc isn hsn hn b
    rw [waitLoop]
    by_cases h1 : dl ≤ t
    · rw [if_pos h1]
      intro hb
      exact absurd hb (by simp)
    · rw [if_neg h1]
      dsimp only
      split
      · intro _
        show t < dl
        omega
      · split
        · intro _
          show t < dl
          omega
        · split
          · intro _
            show t < dl
            omega
          · exact ih _ _ _ _ _ (by simp only [pollInterval]; omega) b

theorem waitLoop_time_bound (wr : String) (nim : Nat) (ith : Int) (hmc dl : Nat)
    (tr : Nat → Obs) :
    ∀ (n i t : Nat) (lc : Int) (isn hsn : Option Nat), dl - t ≤ n →
      t < dl + pollInterval →
      (waitLoop wr nim ith hmc dl tr i t lc isn hsn).2 < dl + pollInterval := by
  intro n
  induction n with
  | zero =>
    intro i t lc isn hsn hn ht
    rw [waitLoop, if_pos (by omega : dl ≤ t)]
    exact ht
  | succ n ih =>
    intro i t lc isn hsn hn ht
    rw [waitLoop]
    by_cases h1 : dl ≤ t
    · rw [if_pos h1]
      exact ht
    · rw [if_neg h1]
      dsimp only
      split
      · exact ht
      · split
        · exact ht
        · split
          · exact ht
          · exact ih _ _ _ _ _ (by simp only [pollInterval]; omega)
              (by simp only [pollInterval] at *; omega)

/-- Claim C8 counterexample: with readiness waiting disabled the engine
returns `Ready` even though the configured deadline (5 ms) has already
elapsed at the start time (10 ms) — no deadline check guards the `none`
short-circuit. -/
theorem claim_C8_cex :
    (wait_until_ready "none" 1000 0 1500 5 10 traceStuck).1 = .ready "ready_state"
    ∧ 5 ≤ (wait_until_ready "none" 1000 0 1500 5 10 traceStuck).2 := by
  constructor <;> decide

/-- Claim C8 (amended): unless readiness waiting is disabled (`wait_ready`
case-folds to `"none"`, in which case `Ready` is returned immediately with
no deadline check at all), the Readiness Engine never returns `Ready` at or
after the configured deadline, and whenever it starts no later than the
deadline it returns — `Ready` or timed out — within one poll interval past
the deadline. -/
theorem claim_C8_amended (waitReady : String) (networkIdleMs : Nat)
    (idleThreshold : Int) (heuristicMinChars deadline startTime : Nat)
    (trace : Nat → Obs)
    (hnone : eq_ignore_ascii_case waitReady "none" = false)
    (hstart : startTime ≤ deadline) :
    (∀ b, (wait_until_ready waitReady networkIdleMs idleThreshold
        heuristicMinChars deadline startTime trace).1 = .ready b →
      (wait_until_ready waitReady networkIdleMs idleThreshold
        heuristicMinChars deadline startTime trace).2 < deadline)
    ∧ (wait_until_ready waitReady networkIdleMs idleThreshold
        heuristicMinChars deadline startTime trace).2
          < deadline + pollInterval := by
  rw [wait_until_ready, if_neg (by simp [hnone])]
  constructor
  · intro b hb
    exact waitLoop_ready_lt waitReady networkIdleMs idleThreshold
      heuristicMinChars deadline trace (deadline - startTime) 0 startTime
      (-1) none none (Nat.le_refl _) b hb
  · exact waitLoop_time_bound waitReady networkIdleMs idleThreshold
      heuristicMinChars deadline trace (deadline - startTime) 0 startTime
      (-1) none none (Nat.le_refl _) (by simp only [pollInterval]; omega)

/-- Claim C8 witness: a concrete non-`none` configuration satisfying the
amended bound (the trace reports `complete` on the first tick). -/
theorem claim_C8_witness :
    eq_ignore_ascii_case "complete" "none" = false
    ∧ ((wait_until_ready "complete" 100 0 100 400 0 traceComplete).1
          = .ready "ready_state" →
        (wait_until_ready "complete" 100 0 100 400 0 traceComplete).2 < 400)
    ∧ (wait_until_ready "complete" 100 0 100 400 0 traceComplete).2
        < 400 + pollInterval :=
  ⟨by decide,
   (claim_C8_amended "complete" 100 0 100 400 0 traceComplete (by decide)
     (by omega)).1 "ready_state",
   (claim_C8_amended "complete" 100 0 100 400 0 traceComplete (by decide)
     (by omega)).2⟩

/-- Claim C2 counterexample: with `wait_ready = "none"` the engine does
transition immediately regardless of probe signals, but the branch it
records is `"ready_state"`, not `"none"` — the claimed branch value never
occurs in the code. -/
theorem claim_C2_cex :
    (wait_until_ready "none" 1000 0 1500 12000 0 traceStuck).1
        = .ready "ready_state"
    ∧ (wait_until_ready "none" 1000 0 1500 12000 0 traceStuck).1
        ≠ .ready "none" := by
  constructor <;> decide

/-- Claim C2 (amended): with readiness waiting disabled the engine returns
immediately at the start time, on the first tick, regardless of every probe
signal in the trace — but the branch it reports is `"ready_state"`, not
`"none"`; `main` copies the `ChromeRes` branch verbatim into the output's
`wait_branch` field, so `"ready_state"` is what gets recorded. -/
theorem claim_C2_amended (networkIdleMs : Nat) (idleThreshold : Int)
    (heuristicMinChars deadline startTime : Nat) (trace : Nat → Obs) :
    wait_until_ready "none" networkIdleMs idleThreshold heuristicMinChars
      deadline startTime trace = (.ready "ready_state", startTime)
    ∧ ∀ (u d : String) (c : ChromeResM),
        (outputOfSuccess u d c).wait_branch = c.wait_branch :=
  ⟨rfl, fun _ _ _ => rfl⟩

theorem except_bind_ok {α β : Type} (a : α) (f : α → Except String β) :
    (Except.ok a >>= f) = f a := rfl

theorem except_bind_error {α β : Type} (e : String)
    (f : α → Except String β) :
    ((Except.error e : Except String α) >>= f) = Except.error e := rfl

theorem handleRenderError_ok (url msg : String) (mw el : Nat)
    (hp sp pp : String) (env : DiagEnv) (d1 d2 d3 d4 : Option Nat)
    (hto : timeoutLike msg = true)
    (h1 : env.evalDomTextLen = .ok d1) (h2 : env.evalImagesTotal = .ok d2)
    (h3 : env.evalImagesIncomplete = .ok d3) (h4 : env.evalPending = .ok d4)
    (h5 : env.createDebugDir = .ok ()) :
    handleRenderError url msg mw el hp sp pp env = .ok (.timeout {
      status := "timeout"
      reason := msg
      url := url
      deadline_ms := mw
      elapsed_ms := el
      wait_branch := waitBranchOf msg
      diagnostics := {
        dom_text_chars := d1.getD 0
        images_total := d2.getD 0
        images_incomplete := d3.getD 0
        pending_requests := d4.getD 0 }
      artifacts := {
        html := hp
        screenshot := sp
        pdf := match env.printPdf, env.writePdf with
          | .ok _, .ok _ => some pp
          | _, _ => none } }) := by
  unfold handleRenderError
  rw [if_pos hto]
  simp only [h1, h2, h3, h4, h5, except_bind_ok]
  rfl

/-- Claim C4 counterexample: on the timeout path a failure of the
DOM-text-length evaluation (one of the diagnostic captures the claim calls
best-effort) escalates: the handler returns that capture's error instead of
the timeout report, and none of the remaining captures' outcomes matter. -/
theorem claim_C4_cex :
    timeoutLike "wait_until_ready timeout" = true
    ∧ denvDomFail.evalDomTextLen = .error "evaluate failed: tab crashed"
    ∧ handleRenderError "https://example.com/" "wait_until_ready timeout"
        12000 12100 "dh" "ds" "dp" denvDomFail
      = .error "evaluate failed: tab crashed" :=
  ⟨by decide, rfl, rfl⟩

/-- Claim C4 (amended): on the timeout path the artifact captures
(rendered HTML, screenshot, PDF) are independently best-effort — the
timeout report is produced whatever their outcomes, with the html and
screenshot paths reported unconditionally and the pdf path reported iff
both pdf steps succeeded — but the diagnostic probe evaluations (DOM text
length, image counts, pending-request count) and the debug-directory
creation are not: each is `?`-chained, so the report only survives when
all five succeed. -/
theorem claim_C4_amended (url msg : String) (mw el : Nat)
    (hp sp pp : String) (env : DiagEnv) (d1 d2 d3 d4 : Option Nat)
    (hto : timeoutLike msg = true)
    (h1 : env.evalDomTextLen = .ok d1) (h2 : env.evalImagesTotal = .ok d2)
    (h3 : env.evalImagesIncomplete = .ok d3) (h4 : env.evalPending = .ok d4)
    (h5 : env.createDebugDir = .ok ()) :
    handleRenderError url msg mw el hp sp pp env = .ok (.timeout {
      status := "timeout"
      reason := msg
      url := url
      deadline_ms := mw
      elapsed_ms := el
      wait_branch := waitBranchOf msg
      diagnostics := {
        dom_text_chars := d1.getD 0
        images_total := d2.getD 0
        images_incomplete := d3.getD 0
        pending_requests := d4.getD 0 }
      artifacts := {
        html := hp
        screenshot := sp
        pdf := match env.printPdf, env.writePdf with
          | .ok _, .ok _ => some pp
          | _, _ => none } }) :=
  handleRenderError_ok url msg mw el hp sp pp env d1 d2 d3 d4 hto h1 h2 h3 h4 h5

/-- Claim C4 witness: the amended theorem applied at a concrete
all-captures-succeed environment. -/
theorem claim_C4_witness :
    timeoutLike "wait_until_ready timeout" = true
    ∧ handleRenderError "https://example.com/" "wait_until_ready timeout"
        12000 12100 "out/debug/dom.html" "out/debug/snap.png"
        "out/debug/example.com.pdf" denvOk
      = .ok (.timeout {
          status := "timeout"
          reason := "wait_until_ready timeout"
          url := "https://example.com/"
          deadline_ms := 12000
          elapsed_ms := 12100
          wait_branch := waitBranchOf "wait_until_ready timeout"
          diagnostics := {
            dom_text_chars := 120
            images_total := 4
            images_incomplete := 1
            pending_requests := 2 }
          artifacts := {
            html := "out/debug/dom.html"
            screenshot := "out/debug/snap.png"
            pdf := some "out/debug/example.com.pdf" } }) :=
  ⟨by decide,
   claim_C4_amended "https://example.com/" "wait_until_ready timeout" 12000
     12100 "out/debug/dom.html" "out/debug/snap.png"
     "out/debug/example.com.pdf" denvOk (some 120) (some 4) (some 1) (some 2)
     (by decide) rfl rfl rfl rfl rfl⟩

/-- Claim C6: the caller-selected timeout disposition — `report` writes the
`TimeoutReport` and exits with the distinct non-zero code 2, `continue`
completes normally with a degraded `Output` carrying `http_status = 0`, no
WAF classification and no vendor, `fail` surfaces the report's reason as a
hard error. -/
theorem claim_C6 (inputUrl runDir : String) (r : TimeoutReportM) :
    applyTimeoutDisposition inputUrl runDir .Report r = .reportExit r 2
    ∧ (2 : Nat) ≠ 0
    ∧ applyTimeoutDisposition inputUrl runDir .Continue r
        = .okResult (continueOutput inputUrl runDir r)
    ∧ (continueOutput inputUrl runDir r).http_status = 0
    ∧ (continueOutput inputUrl runDir r).waf_detected = false
    ∧ (continueOutput inputUrl runDir r).anti_bot_vendor = none
    ∧ (continueOutput inputUrl runDir r).js_challenge_page = false
    ∧ applyTimeoutDisposition inputUrl runDir .Fail r = .hardError r.reason :=
  ⟨rfl, by omega, rfl, rfl, rfl, rfl, rfl, rfl⟩

theorem except_bind_ok_inv {α β : Type} {x : Except String α}
    {f : α → Except String β} {b : β}
    (h : (x >>= f) = .ok b) : ∃ a, x = .ok a ∧ f a = .ok b := by
  cases x with
  | error e => rw [except_bind_error] at h; exact absurd h (by simp)
  | ok a => exact ⟨a, rfl, by rw [except_bind_ok] at h; exact h⟩

/-- Claim C7: when the first render attempt errs, fallback is enabled and
the attempt was headless, `main` reruns the render exactly once with a
configuration differing from the original only in `headful = true` — every
other field is reused unchanged — and that rerun's result is what gets
surfaced; with a headful original or fallback disabled, no retry happens. -/
theorem claim_C7 (args : CliM) (render : CliM → Except String RenderOutcomeM)
    (e : String) (hfail : render args = .error e)
    (hfb : args.headful_fallback = true) (hhl : args.headful = false) :
    renderWithFallback args render = render { args with headful := true }
    ∧ renderAttemptConfigs args render = [args, { args with headful := true }]
    ∧ ({ args with headful := true } : CliM).headful = true
    ∧ ({ args with headful := true } : CliM).url = args.url
    ∧ ({ args with headful := true } : CliM).force_chrome = args.force_chrome
    ∧ ({ args with headful := true } : CliM).out_root = args.out_root
    ∧ ({ args with headful := true } : CliM).run_dir = args.run_dir
    ∧ ({ args with headful := true } : CliM).max_wait_ms = args.max_wait_ms
    ∧ ({ args with headful := true } : CliM).wait_ready = args.wait_ready
    ∧ ({ args with headful := true } : CliM).network_idle_ms = args.network_idle_ms
    ∧ ({ args with headful := true } : CliM).idle_threshold = args.idle_threshold
    ∧ ({ args with headful := true } : CliM).idle_ignore = args.idle_ignore
    ∧ ({ args with headful := true } : CliM).heuristic_min_chars = args.heuristic_min_chars
    ∧ ({ args with headful := true } : CliM).wait_selector = args.wait_selector
    ∧ ({ args with headful := true } : CliM).profile = args.profile
    ∧ ({ args with headful := true } : CliM).user_data_dir = args.user_data_dir
    ∧ ({ args with headful := true } : CliM).import_cookies = args.import_cookies
    ∧ ({ args with headful := true } : CliM).export_cookies = args.export_cookies
    ∧ ({ args with headful := true } : CliM).locale = args.locale
    ∧ ({ args with headful := true } : CliM).tz = args.tz
    ∧ ({ args with headful := true } : CliM).geo = args.geo
    ∧ ({ args with headful := true } : CliM).window = args.window
    ∧ ({ args with headful := true } : CliM).dpr = args.dpr
    ∧ ({ args with headful := true } : CliM).mobile = args.mobile
    ∧ ({ args with headful := true } : CliM).extensions = args.extensions
    ∧ ({ args with headful := true } : CliM).proxy = args.proxy
    ∧ ({ args with headful := true } : CliM).no_virtual_time = args.no_virtual_time
    ∧ ({ args with headful := true } : CliM).headful_fallback = args.headful_fallback
    ∧ ({ args with headful := true } : CliM).debug_dir = args.debug_dir
    ∧ ({ args with headful := true } : CliM).on_timeout = args.on_timeout
    ∧ (∀ (args2 : CliM) (render2 : CliM → Except String RenderOutcomeM),
        args2.headful = true ∨ args2.headful_fallback = false →
        renderWithFallback args2 render2 = render2 args2
        ∧ renderAttemptConfigs args2 render2 = [args2]) := by
  refine ⟨?_, ?_, rfl, rfl, rfl, rfl, rfl, rfl, rfl, rfl, rfl, rfl, rfl, rfl,
    rfl, rfl, rfl, rfl, rfl, rfl, rfl, rfl, rfl, rfl, rfl, rfl, rfl, rfl,
    rfl, rfl, ?_⟩
  · unfold renderWithFallback
    simp [hfail, hfb, hhl, Except.isOk, Except.toBool]
  · unfold renderAttemptConfigs
    simp [hfail, hfb, hhl, Except.isOk, Except.toBool]
  · intro args2 render2 h
    rcases h with h | h <;>
      exact ⟨by simp [renderWithFallback, h], by simp [renderAttemptConfigs, h]⟩

/-- Claim C7 witness: a stub renderer failing headless and succeeding
headful, driven through the fallback at a concrete configuration. -/
theorem claim_C7_witness :
    renderStub cliFB = .error "chrome failed to launch"
    ∧ cliFB.headful_fallback = true
    ∧ cliFB.headful = false
    ∧ renderWithFallback cliFB renderStub
        = renderStub { cliFB with headful := true }
    ∧ renderAttemptConfigs cliFB renderStub
        = [cliFB, { cliFB with headful := true }]
    ∧ renderStub { cliFB with headful := true } = .ok (.success chromeFix) :=
  ⟨rfl, rfl, rfl,
   (claim_C7 cliFB renderStub "chrome failed to launch" rfl rfl rfl).1,
   (claim_C7 cliFB renderStub "chrome failed to launch" rfl rfl rfl).2.1,
   rfl⟩

/-- Claim C5 counterexample: on the success path a failure of the optional
screenshot capture (a non-timeout-like error) aborts the closure,
propagates out of `render_with_chrome`, and — with fallback disabled —
fails the invocation, even though the primary HTML capture succeeded. -/
theorem claim_C5_cex :
    successCapture "https://x.test/" "dom.html" "snap.png" "page.pdf" 100
      senvShotFail = .error "screenshot capture failed"
    ∧ render_with_chrome "https://x.test/" "dom.html" "snap.png" "page.pdf"
        12000 100 "dh" "ds" "dp" (.ok ()) senvShotFail denvOk
      = .error "screenshot capture failed"
    ∧ renderWithFallback cliBase (fun _ =>
        render_with_chrome "https://x.test/" "dom.html" "snap.png" "page.pdf"
          12000 100 "dh" "ds" "dp" (.ok ()) senvShotFail denvOk)
      = .error "screenshot capture failed" :=
  ⟨rfl, rfl, rfl⟩

/-- Claim C5 (amended): on the success path every capture step is
`?`-chained, so a failure in any of them — including the optional cookie
export, the screenshot and the PDF print — aborts the closure with that
error; when the error is not timeout-like it propagates out of
`render_with_chrome` as a hard failure. Fatality is not limited to the
primary HTML capture. -/
theorem claim_C5_amended (m wb fu u p1 p2 p3 dh ds dp : String)
    (bt : Option String) (el mw : Nat) (denv : DiagEnv)
    (hm : timeoutLike m = false) :
    successCapture u p1 p2 p3 el
        { senvOk wb fu bt with cookieExport := some (.error m) } = .error m
    ∧ successCapture u p1 p2 p3 el
        { senvOk wb fu bt with captureShot := .error m } = .error m
    ∧ successCapture u p1 p2 p3 el
        { senvOk wb fu bt with printPdf := .error m } = .error m
    ∧ render_with_chrome u p1 p2 p3 mw el dh ds dp (.ok ())
        { senvOk wb fu bt with captureShot := .error m } denv = .error m := by
  refine ⟨rfl, rfl, rfl, ?_⟩
  show handleRenderError u m mw el dh ds dp denv = .error m
  unfold handleRenderError
  rw [if_neg (by simp [hm])]

/-- Claim C5 witness: the amended theorem at a concrete non-timeout-like
error message. -/
theorem claim_C5_witness :
    timeoutLike "disk full" = false
    ∧ successCapture "https://w.test/" "a.html" "b.png" "c.pdf" 7
        { senvOk "ready_state" "https://w.test/" none with
          cookieExport := some (.error "disk full") } = .error "disk full"
    ∧ successCapture "https://w.test/" "a.html" "b.png" "c.pdf" 7
        { senvOk "ready_state" "https://w.test/" none with
          captureShot := .error "disk full" } = .error "disk full"
    ∧ successCapture "https://w.test/" "a.html" "b.png" "c.pdf" 7
        { senvOk "ready_state" "https://w.test/" none with
          printPdf := .error "disk full" } = .error "disk full"
    ∧ render_with_chrome "https://w.test/" "a.html" "b.png" "c.pdf" 5000 7
        "dh" "ds" "dp" (.ok ())
        { senvOk "ready_state" "https://w.test/" none with
          captureShot := .error "disk full" } denvOk = .error "disk full" :=
  ⟨by decide,
   (claim_C5_amended "disk full" "ready_state" "https://w.test/"
     "https://w.test/" "a.html" "b.png" "c.pdf" "dh" "ds" "dp" none 7 5000
     denvOk (by decide)).1,
   (claim_C5_amended "disk full" "ready_state" "https://w.test/"
     "https://w.test/" "a.html" "b.png" "c.pdf" "dh" "ds" "dp" none 7 5000
     denvOk (by decide)).2.1,
   (claim_C5_amended "disk full" "ready_state" "https://w.test/"
     "https://w.test/" "a.html" "b.png" "c.pdf" "dh" "ds" "dp" none 7 5000
     denvOk (by decide)).2.2.1,
   (claim_C5_amended "disk full" "ready_state" "https://w.test/"
     "https://w.test/" "a.html" "b.png" "c.pdf" "dh" "ds" "dp" none 7 5000
     denvOk (by decide)).2.2.2⟩

/-- Claim C9: for every successfully rendered page whose evaluated body
text (the first 4096 visible characters) contains one of the case-
insensitive phrases "checking your browser", "verifying you are human" or
"press and hold", the result carries `js_challenge = true` and
`waf_detected = true`, the two flags mirror each other, and the anti-bot
vendor is reported absent. -/
theorem claim_C9 (u p1 p2 p3 : String) (el : Nat) (env : SuccessEnv)
    (r : ChromeResM) (t : String)
    (hok : successCapture u p1 p2 p3 el env = .ok r)
    (hbt : env.evalBodyText = .ok (some t))
    (hph : strContains (asciiLower t) "checking your browser" = true
      ∨ strContains (asciiLower t) "verifying you are human" = true
      ∨ strContains (asciiLower t) "press and hold" = true) :
    r.js_challenge = true ∧ r.waf_detected = true
      ∧ r.anti_bot_vendor = none ∧ r.waf_detected = r.js_challenge := by
  have hch : challenge_phrases t = true := by
    rcases hph with h | h | h <;> simp [challenge_phrases, h]
  rw [successCapture] at hok
  obtain ⟨a1, h1, hok⟩ := except_bind_ok_inv hok
  try dsimp only at hok
  obtain ⟨a2, h2, hok⟩ := except_bind_ok_inv hok
  try dsimp only at hok
  obtain ⟨a3, h3, hok⟩ := except_bind_ok_inv hok
  try dsimp only at hok
  obtain ⟨a4, h4, hok⟩ := except_bind_ok_inv hok
  try dsimp only at hok
  obtain ⟨wb, h5, hok⟩ := except_bind_ok_inv hok
  try dsimp only at hok
  obtain ⟨a6, h6, hok⟩ := except_bind_ok_inv hok
  try dsimp only at hok
  obtain ⟨a7, h7, hok⟩ := except_bind_ok_inv hok
  try dsimp only at hok
  obtain ⟨bt, h8, hok⟩ := except_bind_ok_inv hok
  try dsimp only at hok
  rw [hbt] at h8
  injection h8 with h8
  subst h8
  obtain ⟨a9, h9, hok⟩ := except_bind_ok_inv hok
  try dsimp only at hok
  obtain ⟨a10, h10, hok⟩ := except_bind_ok_inv hok
  try dsimp only at hok
  obtain ⟨a11, h11, hok⟩ := except_bind_ok_inv hok
  try dsimp only at hok
  obtain ⟨a12, h12, hok⟩ := except_bind_ok_inv hok
  try dsimp only at hok
  obtain ⟨a13, h13, hok⟩ := except_bind_ok_inv hok
  try dsimp only at hok
  obtain ⟨a14, h14, hok⟩ := except_bind_ok_inv hok
  try dsimp only at hok
  obtain ⟨a15, h15, hok⟩ := except_bind_ok_inv hok
  try dsimp only at hok
  injection hok with hok
  subst hok
  simp [challengeOf, hch]

set_option maxRecDepth 8000 in
/-- Claim C9 witness: a concrete successful session whose body text
contains "Verifying you are human". -/
theorem claim_C9_witness :
    successCapture "https://shop.example" "dom.html" "snap.png" "page.pdf"
      321 senvC9 = .ok chromeC9
    ∧ senvC9.evalBodyText = .ok (some bodyC9)
    ∧ strContains (asciiLower bodyC9) "verifying you are human" = true
    ∧ (chromeC9.js_challenge = true ∧ chromeC9.waf_detected = true
        ∧ chromeC9.anti_bot_vendor = none
        ∧ chromeC9.waf_detected = chromeC9.js_challenge) :=
  ⟨rfl, rfl, by decide,
   claim_C9 "https://shop.example" "dom.html" "snap.png" "page.pdf" 321
     senvC9 chromeC9 bodyC9 rfl rfl (Or.inr (Or.inl (by decide)))⟩

/-- Claim C10 counterexample: a render failure with a timeout-like message
("wait_until_ready timeout") is NOT converted into a Timeout outcome when a
diagnostic capture fails — the diagnostic error escalates out of
`render_with_chrome`, and with `headful_fallback` enabled the headful
retry IS triggered. -/
theorem claim_C10_cex :
    timeoutLike "wait_until_ready timeout" = true
    ∧ render_with_chrome "https://slow.example/" "a" "b" "c" 12000 12345
        "dh" "ds" "dp" (.ok ()) senvWaitTimeout denvImgFail
      = .error "images eval failed"
    ∧ cliFB.headful_fallback = true
    ∧ renderAttemptConfigs cliFB (fun _ =>
        render_with_chrome "https://slow.example/" "a" "b" "c" 12000 12345
          "dh" "ds" "dp" (.ok ()) senvWaitTimeout denvImgFail)
      = [cliFB, { cliFB with headful := true }] :=
  ⟨by decide, rfl, rfl, rfl⟩

/-- Claim C10 (amended): a render failure whose message is timeout-like is
converted into a successful Timeout outcome — and hence never triggers the
headful fallback retry — provided the diagnostic captures all succeed; an
escalation of a timeout-like failure can only come from a failing
diagnostic capture, so only non-timeout-like errors or timeout-like
failures with failing diagnostics can trigger the retry. -/
theorem claim_C10_amended (args : CliM) (u p1 p2 p3 dh ds dp : String)
    (mw el : Nat) (senv : SuccessEnv) (denv : DiagEnv) (e : String)
    (hfail : successCapture u p1 p2 p3 el senv = .error e)
    (hto : timeoutLike e = true) (hd : diagOk denv) :
    (∃ rep, render_with_chrome u p1 p2 p3 mw el dh ds dp (.ok ()) senv denv
        = .ok (.timeout rep))
    ∧ renderAttemptConfigs args
        (fun _ => render_with_chrome u p1 p2 p3 mw el dh ds dp (.ok ()) senv denv)
      = [args]
    ∧ (∀ (denvB : DiagEnv) (eB : String),
        handleRenderError u e mw el dh ds dp denvB = .error eB →
          ¬ diagOk denvB) := by
  obtain ⟨⟨d1, h1⟩, ⟨d2, h2⟩, ⟨d3, h3⟩, ⟨d4, h4⟩, h5⟩ := hd
  have hren : render_with_chrome u p1 p2 p3 mw el dh ds dp (.ok ()) senv denv
      = handleRenderError u e mw el dh ds dp denv := by
    unfold render_with_chrome
    rw [hfail]
  have hrep := handleRenderError_ok u e mw el dh ds dp denv d1 d2 d3 d4 hto
    h1 h2 h3 h4 h5
  refine ⟨⟨_, hren.trans hrep⟩, ?_, ?_⟩
  · unfold renderAttemptConfigs
    dsimp only
    rw [hren.trans hrep]
    simp [Except.isOk, Except.toBool]
  · intro denvB eB hB hdB
    obtain ⟨⟨b1, g1⟩, ⟨b2, g2⟩, ⟨b3, g3⟩, ⟨b4, g4⟩, g5⟩ := hdB
    rw [handleRenderError_ok u e mw el dh ds dp denvB b1 b2 b3 b4 hto
      g1 g2 g3 g4 g5] at hB
    exact absurd hB (by simp)

/-- Claim C10 witness: a concrete timeout-like readiness failure with all
diagnostics succeeding — converted to a Timeout outcome, single attempt,
no retry despite `headful_fallback = true`. -/
theorem claim_C10_witness :
    successCapture "https://slow.example/" "a" "b" "c" 12345 senvWaitTimeout
      = .error "wait_until_ready timeout"
    ∧ timeoutLike "wait_until_ready timeout" = true
    ∧ (∃ rep, render_with_chrome "https://slow.example/" "a" "b" "c" 12000
        12345 "dh" "ds" "dp" (.ok ()) senvWaitTimeout denvOk
        = .ok (.timeout rep))
    ∧ renderAttemptConfigs cliFB (fun _ =>
        render_with_chrome "https://slow.example/" "a" "b" "c" 12000 12345
          "dh" "ds" "dp" (.ok ()) senvWaitTimeout denvOk)
      = [cliFB] :=
  ⟨rfl, by decide,
   (claim_C10_amended cliFB "https://slow.example/" "a" "b" "c" "dh" "ds"
     "dp" 12000 12345 senvWaitTimeout denvOk "wait_until_ready timeout" rfl
     (by decide)
     ⟨⟨some 120, rfl⟩, ⟨some 4, rfl⟩, ⟨some 1, rfl⟩, ⟨some 2, rfl⟩, rfl⟩).1,
   (claim_C10_amended cliFB "https://slow.example/" "a" "b" "c" "dh" "ds"
     "dp" 12000 12345 senvWaitTimeout denvOk "wait_until_ready timeout" rfl
     (by decide)
     ⟨⟨some 120, rfl⟩, ⟨some 4, rfl⟩, ⟨some 1, rfl⟩, ⟨some 2, rfl⟩, rfl⟩).2.1⟩
